import Mathlib

/-!
Shallow embedding of the updater commands in `src/src-tauri/src/lib.rs`
(module `updater_cmd`): credential resolution (`get_github_token` and the
inline token chains), the release-metadata fetch (`get_app_versions`), and
the two updater flows (`check_update_with_auth`, `check_and_install_update`).

External effects are modelled explicitly:
  * the process environment and the compile-time `option_env!` constant as a
    `TokenEnv` record;
  * the best-effort dotenv loads as abstract `TokenEnv → TokenEnv` mutations
    whose results are discarded (a failed load is the identity mutation);
  * the HTTP fetch and the tauri updater capability as oracles (`HttpWorld`,
    `UpdaterWorld`) describing the outcome of each external call;
  * observable side effects (which files were loaded, whether an
    Authorization header was attached, whether check/install were invoked)
    as event traces returned next to the result value.
-/

/-- The token sources visible to the updater commands:
`option_env!("TAURI_UPDATE_TOKEN")` (a compile-time constant),
`std::env::var("TAURI_UPDATE_TOKEN").ok()` and
`std::env::var("GITHUB_TOKEN").ok()` (runtime environment variables). -/
structure TokenEnv where
  compiledToken : Option String
  tauriUpdateToken : Option String
  githubToken : Option String
deriving Repr, DecidableEq

/-- `get_github_token` (lib.rs lines 11-30): compiled token, then runtime
`TAURI_UPDATE_TOKEN`, then runtime `GITHUB_TOKEN`; `or_else` chains are
first-hit-wins. -/
def get_github_token (env : TokenEnv) : Option String :=
  env.compiledToken.orElse fun _ =>
    env.tauriUpdateToken.orElse fun _ => env.githubToken

/-- The inline token chain shared by `check_update_with_auth` (lines 176-179)
and `check_and_install_update` (lines 239-242): compiled token, then runtime
`GITHUB_TOKEN`, then runtime `TAURI_UPDATE_TOKEN`. -/
def resolve_token_updater (env : TokenEnv) : Option String :=
  env.compiledToken.orElse fun _ =>
    env.githubToken.orElse fun _ => env.tauriUpdateToken

/-- The tag-normalization step inside `get_app_versions` (lines 128-139):
strip `"app-v"`, else `"app-"`, else `"v"`. Rust's `starts_with` compares
the leading characters, modelled on the string's character list, and
`strip_prefix` of a literal that `starts_with` already matched removes
exactly that literal, i.e. drops its length in characters (the prefixes here
are ASCII, one character each per `char`). -/
def normalize_tag (s : String) : String :=
  if "app-v".data.isPrefixOf s.data then String.mk (s.data.drop 5)
  else if "app-".data.isPrefixOf s.data then String.mk (s.data.drop 4)
  else if "v".data.isPrefixOf s.data then String.mk (s.data.drop 1)
  else s

/-- A `serde_json::Value`, restricted to what the code inspects. -/
inductive JsonVal where
  | null
  | str (s : String)
  | num (n : Int)
  | boolean (b : Bool)
  | arr (elems : List JsonVal)
  | obj (fields : List (String × JsonVal))

/-- `Value::get(key)`: field lookup on an object, `None` on anything else. -/
def JsonVal.get : JsonVal → String → Option JsonVal
  | .obj fields, key => List.lookup key fields
  | _, _ => none

/-- `Value::as_str()`. -/
def JsonVal.as_str : JsonVal → Option String
  | .str s => some s
  | _ => none

/-- Outcome of `request.send().await` in `get_app_versions`, together with
the body handling each branch performs: a 2xx response carries the result of
`resp.json::<serde_json::Value>()`, a non-2xx response carries the status,
its `canonical_reason()` and the result of `resp.text()`, and a transport
failure carries the reqwest error message. -/
inductive FetchOutcome where
  | respSuccess (parsed : Except String JsonVal)
  | respFailure (status : Nat) (reason : Option String) (bodyText : Except Unit String)
  | sendError (msg : String)

/-- The external world of `get_app_versions`: the outcome of
`reqwest::Client::builder().build()` and of the single GET request. -/
structure HttpWorld where
  clientBuild : Except String Unit
  fetch : FetchOutcome

/-- Observable external calls the three commands can make: the two
best-effort dotenv loads (`dotenvy::dotenv()`, searching from the current
working directory, and `dotenvy::from_path(cwd/../.env)`), attaching an
Authorization header to the updater builder, calling `updater.check()`, and
calling `update.download_and_install(..)`. -/
inductive Event where
  | dotenvDefault
  | dotenvParent
  | headerSet (value : String)
  | checkCalled
  | installCalled
deriving Repr, DecidableEq

/-- Result struct `AppVersions` (lines 32-39). -/
structure AppVersions where
  current : String
  latest : Option String
  latest_notes : Option String
  api_error : Option String
deriving Repr, DecidableEq

/-- `get_app_versions` (lines 41-151). `currentVersion` is
`app.package_info().version.to_string()` supplied by the host; `dotenvLoad`
and `parentLoad` are the environment mutations the two best-effort dotenv
calls perform (identity when the file is missing or unparsable — their
`Result` is discarded with `let _ =`). Returns the `AppVersions` value and
the trace of attempted loads. -/
def get_app_versions (currentVersion : String) (env0 : TokenEnv)
    (dotenvLoad parentLoad : TokenEnv → TokenEnv) (w : HttpWorld) :
    AppVersions × List Event :=
  -- let _ = dotenvy::dotenv();  (unconditional)
  let env1 := dotenvLoad env0
  -- if TAURI_UPDATE_TOKEN is_err() && GITHUB_TOKEN is_err() { from_path(cwd/../.env) }
  let loaded :=
    if env1.tauriUpdateToken.isNone && env1.githubToken.isNone then
      (parentLoad env1, [Event.dotenvDefault, Event.dotenvParent])
    else (env1, [Event.dotenvDefault])
  let env := loaded.1
  let trace := loaded.2
  match w.clientBuild with
  | .error e =>
      ({ current := currentVersion, latest := none, latest_notes := none,
         api_error := some e }, trace)
  | .ok _ =>
    -- token := get_github_token(); attached as Authorization header if present
    let _token := get_github_token env
    let parsed :=
      match w.fetch with
      | .respSuccess (.ok j) => (some j, (none : Option String))
      | .respSuccess (.error e) => (none, some ("Erreur parsing JSON: " ++ e))
      | .respFailure status reason bodyText =>
          let error_body :=
            match bodyText with
            | .ok b => b
            | .error _ => "Impossible de lire le corps"
          (none, some (toString status ++ " " ++ reason.getD "" ++ " - " ++ error_body))
      | .sendError e => (none, some e)
    let json := parsed.1
    let api_error := parsed.2
    let latest :=
      ((json.bind fun j => (j.get "tag_name").orElse fun _ => j.get "name").bind
        JsonVal.as_str).map normalize_tag
    let latest_notes := (json.bind fun j => j.get "body").bind JsonVal.as_str
    ({ current := currentVersion, latest := latest, latest_notes := latest_notes,
       api_error := api_error }, trace)

/-- Result struct `UpdateInfo` (lines 163-169). -/
structure UpdateInfo where
  available : Bool
  version : Option String
  body : Option String
  error : Option String
deriving Repr, DecidableEq

/-- Result struct `UpdateResult` (lines 153-161). -/
structure UpdateResult where
  available : Bool
  version : Option String
  body : Option String
  error : Option String
  installed : Bool
deriving Repr, DecidableEq

/-- Outcome of `updater.check().await`: `Ok(Some(update))` with the update's
version and optional body, `Ok(None)`, or `Err(e)`. -/
inductive CheckOutcome where
  | found (version : String) (body : Option String)
  | nothingNew
  | checkErr (msg : String)

/-- The external updater capability as seen by the two updater commands:
the outcome of `builder.header("Authorization", value)` as a function of the
header value, of `builder.build()`, of `updater.check()`, and of
`update.download_and_install(..)`. -/
structure UpdaterWorld where
  headerResult : String → Except String Unit
  buildResult : Except String Unit
  checkResult : CheckOutcome
  installResult : Except String Unit

/-- `check_update_with_auth` (lines 173-234). Returns the `UpdateInfo` value
and the trace of updater-capability calls. -/
def check_update_with_auth (env : TokenEnv) (w : UpdaterWorld) :
    UpdateInfo × List Event :=
  let token := resolve_token_updater env
  -- if let Some(t) = token { builder = builder.header("Authorization", format!("Bearer {}", t))? }
  let headerStep : Except String (List Event) :=
    match token with
    | none => .ok []
    | some t =>
      match w.headerResult ("Bearer " ++ t) with
      | .ok _ => .ok [Event.headerSet ("Bearer " ++ t)]
      | .error e => .error e
  match headerStep with
  | .error e =>
      ({ available := false, version := none, body := none, error := some e }, [])
  | .ok evs =>
    match w.buildResult with
    | .error e =>
        ({ available := false, version := none, body := none, error := some e }, evs)
    | .ok _ =>
      match w.checkResult with
      | .nothingNew =>
          ({ available := false, version := none, body := none, error := none },
           evs ++ [Event.checkCalled])
      | .checkErr e =>
          ({ available := false, version := none, body := none, error := some e },
           evs ++ [Event.checkCalled])
      | .found v b =>
          ({ available := true, version := some v, body := b, error := none },
           evs ++ [Event.checkCalled])

/-- `check_and_install_update` (lines 236-321). Returns the `UpdateResult`
value and the trace of updater-capability calls. -/
def check_and_install_update (env : TokenEnv) (w : UpdaterWorld) :
    UpdateResult × List Event :=
  let token := resolve_token_updater env
  let headerStep : Except String (List Event) :=
    match token with
    | none => .ok []
    | some t =>
      match w.headerResult ("Bearer " ++ t) with
      | .ok _ => .ok [Event.headerSet ("Bearer " ++ t)]
      | .error e => .error e
  match headerStep with
  | .error e =>
      ({ available := false, version := none, body := none, error := some e,
         installed := false }, [])
  | .ok evs =>
    match w.buildResult with
    | .error e =>
        ({ available := false, version := none, body := none, error := some e,
           installed := false }, evs)
    | .ok _ =>
      match w.checkResult with
      | .nothingNew =>
          ({ available := false, version := none, body := none, error := none,
             installed := false }, evs ++ [Event.checkCalled])
      | .checkErr e =>
          ({ available := false, version := none, body := none, error := some e,
             installed := false }, evs ++ [Event.checkCalled])
      | .found v b =>
          match w.installResult with
          | .ok _ =>
              ({ available := true, version := some v, body := b, error := none,
                 installed := true },
               evs ++ [Event.checkCalled, Event.installCalled])
          | .error e =>
              ({ available := true, version := some v, body := b,
                 error := some ("Installation échouée: " ++ e), installed := false },
               evs ++ [Event.checkCalled, Event.installCalled])

/-! Sample worlds used by witnesses. -/

/-- An updater world in which every external step succeeds and the check
finds version 9.9.9. -/
def okUpdaterWorld : UpdaterWorld :=
  ⟨fun _ => Except.ok (), Except.ok (), CheckOutcome.found "9.9.9" none, Except.ok ()⟩

/-- C1 (counterexample): with no compile-time token and both runtime
variables set, the token chain used by `check_update_with_auth` and
`check_and_install_update` (lines 176-179 and 239-242) returns the
`GITHUB_TOKEN` value, not the `TAURI_UPDATE_TOKEN` value, so the claimed
named-variable-before-fallback precedence fails for those two operations. -/
theorem C1_counterexample :
    resolve_token_updater ⟨none, some "named-token", some "generic-token"⟩ =
      some "generic-token" ∧
    (some "generic-token" : Option String) ≠ some "named-token" :=
  ⟨rfl, by decide⟩

/-- C1 (amended): with no compile-time token and both runtime variables set,
`get_app_versions`'s resolver (`get_github_token`) returns the
`TAURI_UPDATE_TOKEN` value, while the chain used by `check_update_with_auth`
and `check_and_install_update` consults `GITHUB_TOKEN` before the runtime
`TAURI_UPDATE_TOKEN` and therefore returns the `GITHUB_TOKEN` value; in both
chains a compile-time token, when present, wins over everything. -/
theorem C1_amended_token_precedence (n g c : String) :
    get_github_token ⟨none, some n, some g⟩ = some n ∧
    resolve_token_updater ⟨none, some n, some g⟩ = some g ∧
    get_github_token ⟨some c, some n, some g⟩ = some c ∧
    resolve_token_updater ⟨some c, some n, some g⟩ = some c :=
  ⟨rfl, rfl, rfl, rfl⟩

/-- C2: `check_and_install_update` never pairs `installed = true` with
`available = false`: every result with `installed = true` comes from the
branch where the check had already confirmed an update, which sets
`available = true`. -/
theorem C2_installed_implies_available (env : TokenEnv) (w : UpdaterWorld) :
    (check_and_install_update env w).1.installed = true →
    (check_and_install_update env w).1.available = true := by
  unfold check_and_install_update
  repeat' split <;> try simp

/-- C2 witness: a run in which every external step succeeds installs the
found update and indeed reports it available. -/
theorem C2_witness :
    (check_and_install_update ⟨none, none, none⟩ okUpdaterWorld).1.available = true :=
  C2_installed_implies_available ⟨none, none, none⟩ okUpdaterWorld rfl

/-- C3: tag normalization strips at most one prefix, trying `"app-v"`, then
`"app-"`, then `"v"`; the four spec inputs normalize as stated, and a leftover
`"v"` after stripping `"app-v"` is kept (at most one prefix is stripped). -/
theorem C3_normalize_tag_expected :
    normalize_tag "app-v1.2.3" = "1.2.3" ∧ normalize_tag "app-2.0.0" = "2.0.0" ∧
    normalize_tag "v3.1.0" = "3.1.0" ∧ normalize_tag "4.0.0" = "4.0.0" ∧
    normalize_tag "app-vv5" = "v5" := by
  decide

/-- C5: when the availability check reports that nothing newer exists
(`updater.check()` returns `Ok(None)`), `check_and_install_update` returns
the no-update result (all fields false/none) and never calls
`download_and_install` in that run. -/
theorem C5_no_update_skips_install (env : TokenEnv) (w : UpdaterWorld)
    (hh : ∀ v, w.headerResult v = Except.ok ())
    (hb : w.buildResult = Except.ok ())
    (hc : w.checkResult = CheckOutcome.nothingNew) :
    (check_and_install_update env w).1 =
      { available := false, version := none, body := none, error := none,
        installed := false } ∧
    Event.installCalled ∉ (check_and_install_update env w).2 := by
  unfold check_and_install_update
  rcases htok : resolve_token_updater env with _ | t <;>
    simp [htok, hh, hb, hc]

/-- C5 witness: a concrete run (one token set, all capability steps succeed,
check finds nothing) returns the no-update result with no install call. -/
theorem C5_witness :
    (check_and_install_update ⟨none, none, some "tok"⟩
        ⟨fun _ => Except.ok (), Except.ok (), CheckOutcome.nothingNew,
         Except.ok ()⟩).1 =
      { available := false, version := none, body := none, error := none,
        installed := false } ∧
    Event.installCalled ∉
      (check_and_install_update ⟨none, none, some "tok"⟩
        ⟨fun _ => Except.ok (), Except.ok (), CheckOutcome.nothingNew,
         Except.ok ()⟩).2 :=
  C5_no_update_skips_install ⟨none, none, some "tok"⟩
    ⟨fun _ => Except.ok (), Except.ok (), CheckOutcome.nothingNew, Except.ok ()⟩
    (fun _ => rfl) rfl rfl

/-- C6: when the check confirms an update but `download_and_install` fails,
`check_and_install_update` returns the failed-install result: the error
message is set (install stage), `installed` is false (never the installed
outcome), and `available` is still true so the caller can retry. -/
theorem C6_install_failure_reports_failed (env : TokenEnv) (w : UpdaterWorld)
    (v : String) (b : Option String) (e : String)
    (hh : ∀ s, w.headerResult s = Except.ok ())
    (hb : w.buildResult = Except.ok ())
    (hc : w.checkResult = CheckOutcome.found v b)
    (hi : w.installResult = Except.error e) :
    (check_and_install_update env w).1 =
      { available := true, version := some v, body := b,
        error := some ("Installation échouée: " ++ e), installed := false } := by
  unfold check_and_install_update
  rcases htok : resolve_token_updater env with _ | t <;> simp [htok, hh, hb, hc, hi]

/-- C6 witness: a concrete failing install (disk full) after a successful
check of version 2.0.0 yields the failed result with `available = true`. -/
theorem C6_witness :
    (check_and_install_update ⟨none, none, none⟩
        ⟨fun _ => Except.ok (), Except.ok (),
         CheckOutcome.found "2.0.0" (some "notes"), Except.error "disk full"⟩).1 =
      { available := true, version := some "2.0.0", body := some "notes",
        error := some ("Installation échouée: " ++ "disk full"),
        installed := false } :=
  C6_install_failure_reports_failed ⟨none, none, none⟩
    ⟨fun _ => Except.ok (), Except.ok (),
     CheckOutcome.found "2.0.0" (some "notes"), Except.error "disk full"⟩
    "2.0.0" (some "notes") "disk full" (fun _ => rfl) rfl rfl rfl

/-- The fetch-failure cases named by the spec for `get_app_versions`:
HTTP-client build failure, transport (network) failure, or a non-2xx
(server) response. -/
def fetchFailed (w : HttpWorld) : Bool :=
  match w.clientBuild with
  | .error _ => true
  | .ok _ =>
    match w.fetch with
    | .sendError _ => true
    | .respFailure _ _ _ => true
    | .respSuccess _ => false

/-- C7: `get_app_versions` always returns its (non-empty) current version,
for every credential-resolution outcome and every fetch outcome; whenever
the fetch fails (client build, network, or server error), `api_error` is
populated and `latest` is `none` instead of the call aborting. -/
theorem C7_current_version_always_populated (v : String) (env : TokenEnv)
    (cl pl : TokenEnv → TokenEnv) (w : HttpWorld) (hv : v ≠ "") :
    (get_app_versions v env cl pl w).1.current = v ∧
    (get_app_versions v env cl pl w).1.current ≠ "" ∧
    (fetchFailed w = true →
      (get_app_versions v env cl pl w).1.api_error ≠ none ∧
      (get_app_versions v env cl pl w).1.latest = none) := by
  unfold get_app_versions fetchFailed
  rcases w with ⟨cb, f⟩
  rcases cb with e | u <;>
    rcases f with p | ⟨st, rsn, bt⟩ | m <;>
      simp [hv]

/-- C7 witness: with a transport failure, the call still reports its version
1.0.0, a populated `api_error` and `latest = none`. -/
theorem C7_witness :
    (get_app_versions "1.0.0" ⟨none, none, none⟩ id id
        ⟨Except.ok (), FetchOutcome.sendError "dns error"⟩).1.current = "1.0.0" ∧
    (get_app_versions "1.0.0" ⟨none, none, none⟩ id id
        ⟨Except.ok (), FetchOutcome.sendError "dns error"⟩).1.api_error ≠ none ∧
    (get_app_versions "1.0.0" ⟨none, none, none⟩ id id
        ⟨Except.ok (), FetchOutcome.sendError "dns error"⟩).1.latest = none :=
  ⟨(C7_current_version_always_populated "1.0.0" ⟨none, none, none⟩ id id
      ⟨Except.ok (), FetchOutcome.sendError "dns error"⟩ (by decide)).1,
   ((C7_current_version_always_populated "1.0.0" ⟨none, none, none⟩ id id
      ⟨Except.ok (), FetchOutcome.sendError "dns error"⟩ (by decide)).2.2 rfl).1,
   ((C7_current_version_always_populated "1.0.0" ⟨none, none, none⟩ id id
      ⟨Except.ok (), FetchOutcome.sendError "dns error"⟩ (by decide)).2.2 rfl).2⟩

/-- C8: on a non-2xx response, `get_app_versions` reports a server error
carrying the status code and reason; when the response body cannot be read
it is replaced by the placeholder text and the operation still returns that
server error (the call itself never fails). -/
theorem C8_server_error_reported (v : String) (env : TokenEnv)
    (cl pl : TokenEnv → TokenEnv) (w : HttpWorld) (st : Nat) (rsn : Option String)
    (bt : Except Unit String)
    (hcb : w.clientBuild = Except.ok ())
    (hf : w.fetch = FetchOutcome.respFailure st rsn bt) :
    (get_app_versions v env cl pl w).1.api_error =
      some (toString st ++ " " ++ rsn.getD "" ++ " - " ++
        match bt with
        | .ok b => b
        | .error _ => "Impossible de lire le corps") ∧
    (get_app_versions v env cl pl w).1.current = v := by
  unfold get_app_versions
  cases bt <;> simp [hcb, hf]

/-- C8 witness: a 404 whose body cannot be read still yields the server
error with the status, the reason and the placeholder body text. -/
theorem C8_witness :
    (get_app_versions "1.0.0" ⟨none, none, none⟩ id id
        ⟨Except.ok (),
         FetchOutcome.respFailure 404 (some "Not Found") (Except.error ())⟩).1.api_error =
      some "404 Not Found - Impossible de lire le corps" ∧
    (get_app_versions "1.0.0" ⟨none, none, none⟩ id id
        ⟨Except.ok (),
         FetchOutcome.respFailure 404 (some "Not Found") (Except.error ())⟩).1.current =
      "1.0.0" :=
  C8_server_error_reported "1.0.0" ⟨none, none, none⟩ id id
    ⟨Except.ok (), FetchOutcome.respFailure 404 (some "Not Found") (Except.error ())⟩
    404 (some "Not Found") (Except.error ()) rfl rfl

/-- C9: in `check_update_with_auth` and `check_and_install_update`, when the
token chain resolves to nothing, no Authorization header is attached and the
header-construction failure branch is unreachable: the outcome does not
depend on the header-construction oracle at all, so a credential-stage
failure can only occur when a token was resolved. -/
theorem C9_no_token_no_header (env : TokenEnv) (w : UpdaterWorld)
    (f : String → Except String Unit)
    (h : resolve_token_updater env = none) :
    (∀ s, Event.headerSet s ∉ (check_update_with_auth env w).2) ∧
    (∀ s, Event.headerSet s ∉ (check_and_install_update env w).2) ∧
    check_update_with_auth env ⟨f, w.buildResult, w.checkResult, w.installResult⟩ =
      check_update_with_auth env w ∧
    check_and_install_update env ⟨f, w.buildResult, w.checkResult, w.installResult⟩ =
      check_and_install_update env w := by
  rcases w with ⟨hr, br, cr, ir⟩
  unfold check_update_with_auth check_and_install_update
  rcases br with e | u <;>
    rcases cr with ⟨vv, bb⟩ | _ | m <;>
      rcases ir with e2 | u2 <;>
        simp [h]

/-- C9 witness: with no token anywhere, a run whose header-construction
oracle always fails still attaches no Authorization header. -/
theorem C9_witness :
    Event.headerSet "Bearer x" ∉
      (check_update_with_auth ⟨none, none, none⟩
        ⟨fun _ => Except.error "boom", Except.ok (), CheckOutcome.nothingNew,
         Except.ok ()⟩).2 :=
  (C9_no_token_no_header ⟨none, none, none⟩
    ⟨fun _ => Except.error "boom", Except.ok (), CheckOutcome.nothingNew,
     Except.ok ()⟩ (fun _ => Except.ok ()) rfl).1 "Bearer x"

/-- C10: on a 2xx response whose body fails to parse as JSON,
`get_app_versions` does not abort: it returns a parse-failure message in
`api_error`, `latest = none`, `latest_notes = none`, and the current version
still populated. -/
theorem C10_parse_failure_handled (v : String) (env : TokenEnv)
    (cl pl : TokenEnv → TokenEnv) (w : HttpWorld) (e : String)
    (hcb : w.clientBuild = Except.ok ())
    (hf : w.fetch = FetchOutcome.respSuccess (Except.error e)) :
    (get_app_versions v env cl pl w).1 =
      { current := v, latest := none, latest_notes := none,
        api_error := some ("Erreur parsing JSON: " ++ e) } := by
  unfold get_app_versions
  simp [hcb, hf]

/-- C10 witness: a concrete unparsable 2xx body yields exactly the
parse-failure result with the version still populated. -/
theorem C10_witness :
    (get_app_versions "1.0.0" ⟨none, none, none⟩ id id
        ⟨Except.ok (), FetchOutcome.respSuccess (Except.error "EOF")⟩).1 =
      { current := "1.0.0", latest := none, latest_notes := none,
        api_error := some ("Erreur parsing JSON: " ++ "EOF") } :=
  C10_parse_failure_handled "1.0.0" ⟨none, none, none⟩ id id
    ⟨Except.ok (), FetchOutcome.respSuccess (Except.error "EOF")⟩ "EOF" rfl rfl

/-- C4 (counterexample): the claimed load discipline fails twice. With the
runtime variable `TAURI_UPDATE_TOKEN` set, `get_app_versions` still attempts
the default dotenv load (the `dotenvy::dotenv()` call is unconditional, so
the load is not restricted to the case where neither variable is set); and
with neither variable set, `check_update_with_auth` attempts no dotenv load
at all (the two updater commands never load an env file). -/
theorem C4_counterexample :
    (get_app_versions "1.0.0" ⟨none, some "tok", none⟩ id id
        ⟨Except.ok (), FetchOutcome.sendError "offline"⟩).2 = [Event.dotenvDefault] ∧
    Event.dotenvDefault ∉
      (check_update_with_auth ⟨none, none, none⟩
        ⟨fun _ => Except.ok (), Except.ok (), CheckOutcome.nothingNew,
         Except.ok ()⟩).2 :=
  ⟨rfl, by decide⟩

/-- C4 (amended): only `get_app_versions` attempts dotenv loads. It
unconditionally attempts the default load (from the current working
directory), and additionally attempts the parent-directory load exactly when
neither runtime variable is set after that first load; the two updater
commands never attempt a dotenv load. The loads are best-effort: their
results are discarded, and the returned value is the same whatever
environment mutation the loads perform (so a failed load is never surfaced
as an error). -/
theorem C4_amended_dotenv_loads (v : String) (env : TokenEnv)
    (cl pl : TokenEnv → TokenEnv) (w : HttpWorld) (hw : UpdaterWorld) :
    (get_app_versions v env cl pl w).2 =
      (if ((cl env).tauriUpdateToken.isNone && (cl env).githubToken.isNone) = true
       then [Event.dotenvDefault, Event.dotenvParent]
       else [Event.dotenvDefault]) ∧
    (get_app_versions v env cl pl w).1 = (get_app_versions v env id id w).1 ∧
    Event.dotenvDefault ∉ (check_update_with_auth env hw).2 ∧
    Event.dotenvParent ∉ (check_update_with_auth env hw).2 ∧
    Event.dotenvDefault ∉ (check_and_install_update env hw).2 ∧
    Event.dotenvParent ∉ (check_and_install_update env hw).2 := by
  rcases w with ⟨cb, f⟩
  rcases hw with ⟨hr, br, cr, ir⟩
  unfold get_app_versions check_update_with_auth check_and_install_update
  rcases htok : resolve_token_updater env with _ | t <;>
    rcases cb with e | u <;>
      rcases br with e1 | u1 <;>
        rcases cr with ⟨vv, bb⟩ | _ | m <;>
          rcases ir with e2 | u2 <;>
            rcases f with p | ⟨st, rsn, bt⟩ | m2 <;>
              simp [htok] <;>
                (try (rcases hhr : hr ("Bearer " ++ t) with e3 | u3 <;> simp [hhr])) <;>
                  (try split) <;> simp
